import Mathlib

/-!
Shallow embedding of `src/src/apps/camera_trigger/main.c` (cam-trigger),
the command-driven controller that launches an external recorder process,
with debounce and concurrency gating, asynchronous child reaping and a
blocking shutdown wait.

Machine integers of the C program (`int`, `long`, `sig_atomic_t`) are
modelled as `Int`; none of the quantities involved (millisecond timestamps,
child counts, durations) approach overflow in the scenarios considered.
C strings are modelled as `List Char` (the text up to the terminating NUL).
-/

namespace CamTrigger

/-- Configuration record `app_config_t` (main.c lines 29-34): default clip
length, output directory, minimum inter-trigger gap, verbosity. -/
structure app_config_t where
  duration_ms : Int
  out_dir : String
  min_gap_ms : Int
  verbose : Bool
  deriving Repr, DecidableEq

/-- The compiled-in defaults (main.c lines 36-41). -/
def defaultCfg : app_config_t :=
  { duration_ms := 10000, out_dir := "/mnt/ssd/clips", min_gap_ms := 500,
    verbose := false }

/-- Mutable controller state of the command loop: `g_children`
(main.c line 45) and `last_ms_since_start` (main.c line 174). -/
structure LoopState where
  g_children : Int
  last_ms : Int
  deriving Repr, DecidableEq

/-- State at entry to the command loop: no children, and
`last_ms_since_start = -1000000` (main.c line 174). -/
def initState : LoopState := { g_children := 0, last_ms := -1000000 }

/-- Outcome of the gate checks in the `save` branch, named after the
spec's `Decision` vocabulary: `Debounced` is the `continue` at
main.c line 201, `Busy` the `continue` at line 207, `Proceed dur`
falling through to `spawn_recorder`. -/
inductive Decision where
  | Debounced
  | Busy
  | Proceed (dur : Int)
  deriving Repr, DecidableEq

-- ---------------------------------------------------------------------
-- C string helpers used by the command loop
-- ---------------------------------------------------------------------

/-- One character is C whitespace as classified by `isspace` in the "C"
locale (used by `atoi`). -/
def c_isspace (c : Char) : Bool :=
  c = ' ' || c = '\t' || c = '\n' || c = '\x0b' || c = '\x0c' || c = '\r'

/-- One character is a decimal digit. -/
def c_isdigit (c : Char) : Bool :=
  '0' ≤ c && c ≤ '9'

/-- Accumulate leading decimal digits, stopping at the first non-digit
(the digit-consuming loop inside `atoi`). -/
def atoiLoop : List Char → Nat → Nat
  | [], acc => acc
  | c :: cs, acc =>
      if c_isdigit c then atoiLoop cs (acc * 10 + (c.toNat - '0'.toNat)) else acc

/-- C `atoi`: skip whitespace, optional sign, then leading digits; an
input with no leading digits yields 0.  (Overflow is undefined behaviour
in C and not modelled.) -/
def atoi (s : List Char) : Int :=
  match s.dropWhile c_isspace with
  | '-' :: rest => -(atoiLoop rest 0 : Int)
  | '+' :: rest => (atoiLoop rest 0 : Int)
  | rest => (atoiLoop rest 0 : Int)

/-- The function `atoi` on a Lean string (used for CLI argument values). -/
def atoiStr (s : String) : Int := atoi s.data

/-- Line trimming `trim` (main.c lines 138-144): strip leading and
trailing space/tab/newline/carriage-return. -/
def trim (s : List Char) : List Char :=
  ((s.dropWhile fun c => c = ' ' || c = '\t' || c = '\n' || c = '\r').reverse.dropWhile
    fun c => c = ' ' || c = '\t' || c = '\n' || c = '\r').reverse

/-- Test `strncmp(cmd, lit, n) == 0` where `lit` is a literal of length `n`
and `cmd` is a NUL-terminated C string: true iff `lit` is a prefix of
`cmd` (a shorter `cmd` fails because its NUL mismatches the next literal
character). -/
def strncmp0Aux : List Char → List Char → Bool
  | [], _ => true
  | _ :: _, [] => false
  | p :: ps, c :: cs => c = p && strncmp0Aux ps cs

/-- Wrapper putting the arguments in C's order: `strncmp0 cmd lit` is
`strncmp(cmd, lit, strlen(lit)) == 0`. -/
def strncmp0 (cmd lit : List Char) : Bool := strncmp0Aux lit cmd

/-- Skip over the spaces and tabs before the optional `save` argument
(main.c line 190). -/
def skipSpTab : List Char → List Char
  | [] => []
  | c :: cs => if c = ' ' || c = '\t' then skipSpTab cs else c :: cs

-- ---------------------------------------------------------------------
-- Command dispatch (main.c lines 177-221)
-- ---------------------------------------------------------------------

/-- The command a trimmed non-empty input line dispatches to. -/
inductive Cmd where
  | quit
  | status
  | save (arg : List Char)
  | help
  | unknown
  deriving Repr, DecidableEq

/-- Command dispatch on the trimmed line (main.c lines 181-220): a chain
of `strncmp` prefix tests in source order; the `save` argument is the
text after the first 4 characters with spaces/tabs skipped. -/
def dispatch (cmd : List Char) : Cmd :=
  if strncmp0 cmd ['q','u','i','t'] || strncmp0 cmd ['e','x','i','t'] then .quit
  else if strncmp0 cmd ['s','t','a','t','u','s'] then .status
  else if strncmp0 cmd ['s','a','v','e'] then .save (skipSpTab (cmd.drop 4))
  else if strncmp0 cmd ['h','e','l','p'] || strncmp0 cmd ['?'] then .help
  else .unknown

/-- Duration used for one `save` (main.c lines 188-194): default unless
the argument text is non-empty and `atoi` of it is positive. -/
def saveDur (cfg : app_config_t) (arg : List Char) : Int :=
  if arg ≠ [] then
    let tmp := atoi arg
    if tmp > 0 then tmp else cfg.duration_ms
  else cfg.duration_ms

-- ---------------------------------------------------------------------
-- The save branch: gates, spawn, state update
-- ---------------------------------------------------------------------

/-- The two gate checks of the `save` branch (main.c lines 196-208):
debounce first (lines 199-202), then the timestamp update (line 203),
then the busy check (lines 205-208).  Returns the decision and the
updated state. -/
def saveGate (cfg : app_config_t) (s : LoopState) (now dur : Int) :
    Decision × LoopState :=
  if now - s.last_ms < cfg.min_gap_ms then
    (.Debounced, s)
  else
    let s1 : LoopState := { s with last_ms := now }
    if s1.g_children > 0 then (.Busy, s1)
    else (.Proceed dur, s1)

/-- Child launch `spawn_recorder` (main.c lines 81-115) as seen by the parent:
on fork success increments `g_children` and returns 0; on fork failure
returns -1 with the count untouched. -/
def spawn_recorder (forkOk : Bool) (s : LoopState) : Int × LoopState :=
  if forkOk then (0, { s with g_children := s.g_children + 1 })
  else (-1, s)

/-- Full processing of one `save` command (main.c lines 187-213):
parse the duration, run the gates, and on `Proceed` call
`spawn_recorder`; the `Bool` records whether the
"ERROR: failed to start recorder" report was printed (line 211). -/
def saveCmd (cfg : app_config_t) (s : LoopState) (now : Int) (arg : List Char)
    (forkOk : Bool) : Decision × LoopState × Bool :=
  let dur := saveDur cfg arg
  match saveGate cfg s now dur with
  | (.Proceed d, s1) =>
      let (r, s2) := spawn_recorder forkOk s1
      (.Proceed d, s2, r != 0)
  | (dec, s1) => (dec, s1, false)

-- ---------------------------------------------------------------------
-- Reaper and shutdown (main.c lines 119-128 and 226-229)
-- ---------------------------------------------------------------------

/-- One iteration of the reaping loop in `on_sigchld`
(main.c lines 124-126): after a successful `waitpid`, decrement
`g_children` only if it is positive. -/
def reapOne (g : Int) : Int :=
  if g > 0 then g - 1 else g

/-- Handler `on_sigchld` (main.c lines 119-128) when its `waitpid` loop
reaps `k` terminated children. -/
def on_sigchld (k : Nat) (g : Int) : Int :=
  match k with
  | 0 => g
  | k + 1 => on_sigchld k (reapOne g)

/-- The shutdown wait loop (main.c lines 226-228), driven by a finite
trace of `waitpid` outcomes (`true` = a child was reaped): `some g'`
when the loop exits within the trace with final count `g'`, `none` when
the trace is exhausted while the loop would still be blocking. -/
def shutdownWait : List Bool → Int → Option Int
  | evs, g =>
    if g > 0 then
      match evs with
      | [] => none
      | e :: rest => shutdownWait rest (if e then g - 1 else g)
    else some g

/-- The tail of `main` after the command loop (main.c lines 226-229):
run the shutdown wait, then `return 0`; `some code` only when control
actually returns to the caller. -/
def mainExitCode (g : Int) (evs : List Bool) : Option Int :=
  (shutdownWait evs g).map fun _ => 0

-- ---------------------------------------------------------------------
-- Event-level run of the controller (save commands interleaved with
-- asynchronous reaper notifications)
-- ---------------------------------------------------------------------

/-- An event observed by the controller state: one `save` command
(with its arrival time, raw argument and fork outcome), or one
`SIGCHLD` delivery whose handler reaps `k` children. -/
inductive Ev where
  | save (now : Int) (arg : List Char) (forkOk : Bool)
  | sigchld (k : Nat)
  deriving Repr, DecidableEq

/-- One event step: `save` goes through `saveCmd`; `sigchld` runs the
handler on `g_children` and never touches the timestamp. -/
def stepEv (cfg : app_config_t) (s : LoopState) : Ev → LoopState × Option Decision
  | .save now arg ok =>
      let r := saveCmd cfg s now arg ok
      (r.2.1, some r.1)
  | .sigchld k => ({ s with g_children := on_sigchld k s.g_children }, none)

/-- Run a trace of events, collecting the decision of every `save`. -/
def runEvs (cfg : app_config_t) (s : LoopState) : List Ev → LoopState × List Decision
  | [] => (s, [])
  | e :: es =>
      let (s1, d) := stepEv cfg s e
      let (s2, ds) := runEvs cfg s1 es
      (s2, d.toList ++ ds)

/-- Number of `save` events in a trace. -/
def numSaves : List Ev → Nat
  | [] => 0
  | .save _ _ _ :: es => numSaves es + 1
  | .sigchld _ :: es => numSaves es

-- ---------------------------------------------------------------------
-- CLI argument parsing (main.c lines 149-156)
-- ---------------------------------------------------------------------

/-- Result of the flag-parsing loop: enter the command loop with a
config, or exit with a code before entering it. -/
inductive CliResult where
  | run (cfg : app_config_t)
  | exitCode (c : Int)
  deriving Repr, DecidableEq

/-- The flag loop (main.c lines 149-156), left to right: a value-taking
flag followed by a value consumes it; a value-taking flag with nothing
after it falls through to the unknown-argument branch; `-h`/`--help`
returns 0 at once; anything else prints usage and returns 1 at once. -/
def parseArgs : app_config_t → List String → CliResult
  | cfg, [] => .run cfg
  | cfg, "--duration" :: v :: rest =>
      parseArgs { cfg with duration_ms := atoiStr v } rest
  | cfg, "--outdir" :: v :: rest =>
      parseArgs { cfg with out_dir := v } rest
  | cfg, "--min-gap" :: v :: rest =>
      parseArgs { cfg with min_gap_ms := atoiStr v } rest
  | cfg, a :: rest =>
      if a = "--verbose" then parseArgs { cfg with verbose := true } rest
      else if a = "-h" ∨ a = "--help" then .exitCode 0
      else .exitCode 1

-- ---------------------------------------------------------------------
-- Helper lemmas on the gates and the save command
-- ---------------------------------------------------------------------

/-- A save arriving within `min_gap_ms` of the last debounce-passing
trigger is rejected by gate 1 with the state untouched. -/
lemma saveGate_debounced (cfg : app_config_t) (s : LoopState) (now dur : Int)
    (h : now - s.last_ms < cfg.min_gap_ms) :
    saveGate cfg s now dur = (Decision.Debounced, s) := by
  unfold saveGate
  rw [if_pos h]

/-- A save passing gate 1 while a recording is active is rejected by
gate 2, but only after the timestamp has been updated. -/
lemma saveGate_busy (cfg : app_config_t) (s : LoopState) (now dur : Int)
    (h1 : cfg.min_gap_ms ≤ now - s.last_ms) (h2 : 0 < s.g_children) :
    saveGate cfg s now dur = (Decision.Busy, { s with last_ms := now }) := by
  unfold saveGate
  rw [if_neg (by omega)]
  simp only []
  rw [if_pos h2]

/-- A save passing both gates proceeds, with the timestamp updated. -/
lemma saveGate_pass (cfg : app_config_t) (s : LoopState) (now dur : Int)
    (h1 : cfg.min_gap_ms ≤ now - s.last_ms) (h2 : s.g_children ≤ 0) :
    saveGate cfg s now dur = (Decision.Proceed dur, { s with last_ms := now }) := by
  unfold saveGate
  rw [if_neg (by omega)]
  simp only []
  rw [if_neg (by omega)]

/-- Full save processing on a debounce rejection. -/
lemma saveCmd_debounced (cfg : app_config_t) (s : LoopState) (now : Int)
    (arg : List Char) (ok : Bool) (h : now - s.last_ms < cfg.min_gap_ms) :
    saveCmd cfg s now arg ok = (Decision.Debounced, s, false) := by
  unfold saveCmd
  dsimp only
  rw [saveGate_debounced cfg s now _ h]

/-- Full save processing on a busy rejection. -/
lemma saveCmd_busy (cfg : app_config_t) (s : LoopState) (now : Int)
    (arg : List Char) (ok : Bool) (h1 : cfg.min_gap_ms ≤ now - s.last_ms)
    (h2 : 0 < s.g_children) :
    saveCmd cfg s now arg ok = (Decision.Busy, { s with last_ms := now }, false) := by
  unfold saveCmd
  dsimp only
  rw [saveGate_busy cfg s now _ h1 h2]

/-- Full save processing when both gates pass: the decision is
`Proceed`, the count goes up only when the fork succeeded, and the
failure report is printed exactly when it failed. -/
lemma saveCmd_pass (cfg : app_config_t) (s : LoopState) (now : Int)
    (arg : List Char) (ok : Bool) (h1 : cfg.min_gap_ms ≤ now - s.last_ms)
    (h2 : s.g_children ≤ 0) :
    saveCmd cfg s now arg ok =
      (Decision.Proceed (saveDur cfg arg),
       { g_children := if ok then s.g_children + 1 else s.g_children,
         last_ms := now },
       !ok) := by
  unfold saveCmd spawn_recorder
  dsimp only
  rw [saveGate_pass cfg s now _ h1 h2]
  cases ok <;> rfl

-- ---------------------------------------------------------------------
-- C1 and C2
-- ---------------------------------------------------------------------

/-- C1 is false as stated: a `save` processed while a recording is
active (`g_children = 1`) but arriving within `min_gap_ms` of the last
trigger (gap 100 < 500) yields `Debounced`, not `Busy` — the debounce
gate runs first (main.c lines 199-202 before lines 205-208). -/
theorem c1_counterexample :
    (saveGate defaultCfg { g_children := 1, last_ms := 0 } 100 10000).1
        = Decision.Debounced ∧
    (saveGate defaultCfg { g_children := 1, last_ms := 0 } 100 10000).1
        ≠ Decision.Busy := by
  exact ⟨rfl, by decide⟩

/-- C1 amended: while a recording is active, a `save` yields `Busy`
exactly when it passes the debounce gate; one arriving within
`min_gap_ms` of the last debounce-passing trigger yields `Debounced`
instead. -/
theorem c1_busy_when_active (cfg : app_config_t) (s : LoopState) (now dur : Int)
    (hact : 0 < s.g_children) :
    (saveGate cfg s now dur).1 =
      if now - s.last_ms < cfg.min_gap_ms then Decision.Debounced
      else Decision.Busy := by
  by_cases h : now - s.last_ms < cfg.min_gap_ms
  · rw [saveGate_debounced cfg s now dur h, if_pos h]
  · rw [saveGate_busy cfg s now dur (by omega) hact, if_neg h]

/-- Witness for C1 amended at a concrete input. -/
theorem c1_busy_when_active_witness :
    (saveGate defaultCfg { g_children := 1, last_ms := 0 } 600 10000).1 =
      if (600 : Int) - 0 < defaultCfg.min_gap_ms then Decision.Debounced
      else Decision.Busy :=
  c1_busy_when_active defaultCfg { g_children := 1, last_ms := 0 } 600 10000
    (by decide)

/-- C2 is false as stated: a `save` rejected by the concurrency gate
(state `g_children = 1`, `last_ms = 0`, arriving at 600 ≥ 500) yields
`Busy` yet changes the controller state — `last_ms_since_start` is
updated at main.c line 203, before the busy check at line 205. -/
theorem c2_counterexample :
    (saveGate defaultCfg { g_children := 1, last_ms := 0 } 600 10000).1
        = Decision.Busy ∧
    (saveGate defaultCfg { g_children := 1, last_ms := 0 } 600 10000).2
        ≠ { g_children := 1, last_ms := 0 } := by
  exact ⟨rfl, by decide⟩

/-- C2 amended: a `save` rejected by the concurrency gate leaves
`active_count` unchanged but still sets `last_trigger_time` to `now`;
the timestamp is untouched on a debounce rejection and is updated
whenever the debounce gate passes, whether or not the concurrency gate
then rejects. -/
theorem c2_busy_updates_timestamp (cfg : app_config_t) (s : LoopState)
    (now dur : Int) :
    ((saveGate cfg s now dur).1 = Decision.Busy →
        (saveGate cfg s now dur).2.g_children = s.g_children ∧
        (saveGate cfg s now dur).2.last_ms = now) ∧
    (now - s.last_ms < cfg.min_gap_ms → (saveGate cfg s now dur).2 = s) ∧
    (cfg.min_gap_ms ≤ now - s.last_ms →
        (saveGate cfg s now dur).2.last_ms = now) := by
  by_cases h : now - s.last_ms < cfg.min_gap_ms
  · rw [saveGate_debounced cfg s now dur h]
    exact ⟨fun hb => by simp at hb, fun _ => rfl,
      fun h2 => absurd h2 (by omega)⟩
  · by_cases hg : 0 < s.g_children
    · rw [saveGate_busy cfg s now dur (by omega) hg]
      exact ⟨fun _ => ⟨rfl, rfl⟩, fun hlt => absurd hlt h, fun _ => rfl⟩
    · rw [saveGate_pass cfg s now dur (by omega) (by omega)]
      exact ⟨fun hb => by simp at hb, fun hlt => absurd hlt h,
        fun _ => rfl⟩

/-- Witness for C2 amended at a concrete input. -/
theorem c2_busy_updates_timestamp_witness :
    (saveGate defaultCfg { g_children := 1, last_ms := 0 } 600 10000).2.g_children
        = ({ g_children := 1, last_ms := 0 } : LoopState).g_children ∧
    (saveGate defaultCfg { g_children := 1, last_ms := 0 } 600 10000).2.last_ms
        = 600 :=
  (c2_busy_updates_timestamp defaultCfg { g_children := 1, last_ms := 0 }
    600 10000).1 (by decide)

-- ---------------------------------------------------------------------
-- Helper lemmas on the reaper, the event run and the shutdown wait
-- ---------------------------------------------------------------------

/-- The clamped decrement never goes below zero. -/
lemma reapOne_nonneg (g : Int) (h : 0 ≤ g) : 0 ≤ reapOne g := by
  unfold reapOne
  split <;> omega

/-- The SIGCHLD handler preserves non-negativity of the counter. -/
lemma on_sigchld_nonneg (k : Nat) (g : Int) (h : 0 ≤ g) :
    0 ≤ on_sigchld k g := by
  induction k generalizing g with
  | zero => exact h
  | succ k ih => exact ih (reapOne g) (reapOne_nonneg g h)

/-- One save command preserves non-negativity of the counter. -/
lemma saveCmd_g_nonneg (cfg : app_config_t) (s : LoopState) (now : Int)
    (arg : List Char) (ok : Bool) (h : 0 ≤ s.g_children) :
    0 ≤ (saveCmd cfg s now arg ok).2.1.g_children := by
  by_cases h1 : now - s.last_ms < cfg.min_gap_ms
  · rw [saveCmd_debounced cfg s now arg ok h1]
    exact h
  · by_cases h2 : 0 < s.g_children
    · rw [saveCmd_busy cfg s now arg ok (by omega) h2]
      exact h
    · rw [saveCmd_pass cfg s now arg ok (by omega) (by omega)]
      cases ok <;> simpa using by omega

/-- Every event step preserves non-negativity of the counter. -/
lemma stepEv_g_nonneg (cfg : app_config_t) (s : LoopState) (e : Ev)
    (h : 0 ≤ s.g_children) : 0 ≤ (stepEv cfg s e).1.g_children := by
  cases e with
  | save now arg ok => exact saveCmd_g_nonneg cfg s now arg ok h
  | sigchld k => exact on_sigchld_nonneg k s.g_children h

/-- A whole event run preserves non-negativity of the counter. -/
lemma runEvs_g_nonneg (cfg : app_config_t) (evs : List Ev) :
    ∀ s : LoopState, 0 ≤ s.g_children →
      0 ≤ (runEvs cfg s evs).1.g_children := by
  induction evs with
  | nil => intro s h; exact h
  | cons e es ih =>
    intro s h
    have h1 := stepEv_g_nonneg cfg s e h
    simp only [runEvs]
    exact ih (stepEv cfg s e).1 h1

/-- When the shutdown loop exits within a trace of `waitpid` outcomes
starting from a non-negative count, the final count is exactly zero. -/
lemma shutdownWait_eq_zero (evs : List Bool) :
    ∀ g g' : Int, 0 ≤ g → shutdownWait evs g = some g' → g' = 0 := by
  induction evs with
  | nil =>
    intro g g' hg h
    unfold shutdownWait at h
    split at h
    · exact absurd h (by simp)
    · injection h with h
      omega
  | cons e rest ih =>
    intro g g' hg h
    unfold shutdownWait at h
    split at h
    · exact ih (if e then g - 1 else g) g' (by split <;> omega) h
    · injection h with h
      omega

-- ---------------------------------------------------------------------
-- C4, C5 and C6
-- ---------------------------------------------------------------------

/-- C4: the active-recording count never goes negative.  A successful
reap in the handler decrements the counter by exactly one when it is
positive and leaves it unchanged (at zero, given the invariant)
otherwise; the handler, any interleaving of save commands and SIGCHLD
deliveries, and the shutdown wait loop all preserve `0 ≤ g_children`. -/
theorem c4_count_never_underflows :
    (∀ g : Int, 0 < g → reapOne g = g - 1) ∧
    (∀ g : Int, g ≤ 0 → reapOne g = g) ∧
    (∀ (k : Nat) (g : Int), 0 ≤ g → 0 ≤ on_sigchld k g) ∧
    (∀ (cfg : app_config_t) (s : LoopState) (evs : List Ev),
        0 ≤ s.g_children → 0 ≤ (runEvs cfg s evs).1.g_children) ∧
    (∀ (evs : List Bool) (g g' : Int), 0 ≤ g →
        shutdownWait evs g = some g' → 0 ≤ g') := by
  refine ⟨?_, ?_, on_sigchld_nonneg, ?_, ?_⟩
  · intro g hg
    unfold reapOne
    rw [if_pos hg]
  · intro g hg
    unfold reapOne
    rw [if_neg (by omega)]
  · intro cfg s evs h
    exact runEvs_g_nonneg cfg evs s h
  · intro evs g g' hg h
    rw [shutdownWait_eq_zero evs g g' hg h]

/-- Witness for C4 at concrete inputs. -/
theorem c4_count_never_underflows_witness :
    reapOne 2 = 2 - 1 ∧ reapOne 0 = 0 ∧ (0 : Int) ≤ on_sigchld 3 1 ∧
    0 ≤ (runEvs defaultCfg initState [Ev.save 0 [] true, Ev.sigchld 2]).1.g_children ∧
    (0 : Int) ≤ 0 :=
  ⟨c4_count_never_underflows.1 2 (by decide),
   c4_count_never_underflows.2.1 0 (by decide),
   c4_count_never_underflows.2.2.1 3 1 (by decide),
   c4_count_never_underflows.2.2.2.1 defaultCfg initState
     [Ev.save 0 [] true, Ev.sigchld 2] (by decide),
   c4_count_never_underflows.2.2.2.2 [true] 1 0 (by decide) (by decide)⟩

/-- C5: an accepted `save` whose fork fails leaves `active_count` at 0
(the count is never incremented on a failed spawn), the failure is
reported, and a later `save` arriving at least `min_gap_ms` after the
failed one is accepted and brings the count to 1. -/
theorem c5_spawn_failure_reconciled (cfg : app_config_t) (s : LoopState)
    (now : Int) (arg : List Char) (hgap : cfg.min_gap_ms ≤ now - s.last_ms)
    (hidle : s.g_children = 0) :
    (saveCmd cfg s now arg false).1 = Decision.Proceed (saveDur cfg arg) ∧
    (saveCmd cfg s now arg false).2.1.g_children = 0 ∧
    (saveCmd cfg s now arg false).2.2 = true ∧
    ∀ (now2 : Int) (arg2 : List Char), cfg.min_gap_ms ≤ now2 - now →
      (saveCmd cfg (saveCmd cfg s now arg false).2.1 now2 arg2 true).1 =
          Decision.Proceed (saveDur cfg arg2) ∧
      (saveCmd cfg (saveCmd cfg s now arg false).2.1 now2 arg2 true).2.1.g_children
          = 1 := by
  have h1 := saveCmd_pass cfg s now arg false hgap (by omega)
  rw [h1]
  refine ⟨rfl, by simp [hidle], rfl, ?_⟩
  intro now2 arg2 h2
  have h3 : (saveCmd cfg
      ({ g_children := if false then s.g_children + 1 else s.g_children,
         last_ms := now } : LoopState) now2 arg2 true) =
      (Decision.Proceed (saveDur cfg arg2),
       { g_children := if true then s.g_children + 1 else s.g_children,
         last_ms := now2 }, !true) := by
    have := saveCmd_pass cfg
      { g_children := if false then s.g_children + 1 else s.g_children,
        last_ms := now } now2 arg2 true (by simpa using h2) (by simp [hidle])
    simpa [hidle] using this
  rw [h3]
  exact ⟨rfl, by simp [hidle]⟩

/-- Witness for C5 at a concrete input. -/
theorem c5_spawn_failure_reconciled_witness :
    (saveCmd defaultCfg initState 0 [] false).2.1.g_children = 0 ∧
    (saveCmd defaultCfg initState 0 [] false).2.2 = true ∧
    (saveCmd defaultCfg (saveCmd defaultCfg initState 0 [] false).2.1
        600 [] true).2.1.g_children = 1 := by
  have h := c5_spawn_failure_reconciled defaultCfg initState 0 [] (by decide)
    (by decide)
  exact ⟨h.2.1, h.2.2.1, (h.2.2.2 600 [] (by decide)).2⟩

/-- C6: whenever the shutdown wait returns control (the loop at main.c
lines 226-228 exits), the active-recording count is exactly zero, and
`main` then returns exit code 0. -/
theorem c6_shutdown_never_returns_busy (g : Int) (evs : List Bool) (g' : Int)
    (hg : 0 ≤ g) (hret : shutdownWait evs g = some g') :
    g' = 0 ∧ mainExitCode g evs = some 0 := by
  refine ⟨shutdownWait_eq_zero evs g g' hg hret, ?_⟩
  unfold mainExitCode
  rw [hret]
  rfl

/-- Witness for C6: one in-flight recording, one reaped child. -/
theorem c6_shutdown_never_returns_busy_witness :
    (0 : Int) = 0 ∧ mainExitCode 1 [true] = some 0 :=
  c6_shutdown_never_returns_busy 1 [true] 0 (by decide) (by decide)

-- ---------------------------------------------------------------------
-- C3
-- ---------------------------------------------------------------------

/-- C3 is false as stated: with `min_gap_ms = 500`, saves at times 0,
300 and 600 each arrive less than 500 ms after the one before, yet the
third is accepted once the first recording has been reaped — the
debounce timestamp is not updated on a rejection, so consecutive gaps
can drift past the gap from the last accepted trigger. -/
theorem c3_counterexample :
    (runEvs defaultCfg initState
        [Ev.save 0 [] true, Ev.save 300 [] true, Ev.sigchld 1,
         Ev.save 600 [] true]).2 =
      [Decision.Proceed 10000, Decision.Debounced, Decision.Proceed 10000] ∧
    Decision.Proceed 10000 ≠ Decision.Debounced := by
  exact ⟨rfl, by decide⟩

/-- When every save in a trace arrives within `min_gap_ms` of the fixed
timestamp `t0` held in the state, each of them is debounced and the
timestamp never moves (SIGCHLD deliveries never touch it). -/
lemma runEvs_all_debounced (cfg : app_config_t) (t0 : Int) (evs : List Ev) :
    ∀ s : LoopState, s.last_ms = t0 →
      (∀ now arg ok, Ev.save now arg ok ∈ evs → now - t0 < cfg.min_gap_ms) →
      (runEvs cfg s evs).2 = List.replicate (numSaves evs) Decision.Debounced := by
  induction evs with
  | nil =>
    intro s hl hevs
    rfl
  | cons e es ih =>
    intro s hl hevs
    cases e with
    | save now arg ok =>
      have hnow : now - s.last_ms < cfg.min_gap_ms := by
        rw [hl]
        exact hevs now arg ok (List.mem_cons_self _ _)
      have h1 := saveCmd_debounced cfg s now arg ok hnow
      simp only [runEvs, stepEv, h1, numSaves, List.replicate,
        Option.toList, List.cons_append, List.nil_append]
      exact congrArg _
        (ih s hl fun n a o hm => hevs n a o (List.mem_cons_of_mem _ hm))
    | sigchld k =>
      simp only [runEvs, stepEv, numSaves, Option.toList, List.nil_append]
      exact ih { s with g_children := on_sigchld k s.g_children } hl
        fun n a o hm => hevs n a o (List.mem_cons_of_mem _ hm)

/-- C3 amended: in a sequence of saves that all arrive within
`min_gap_ms` of the *first* one (which passes both gates), only the
first is accepted; every later save yields `Debounced`, whatever
SIGCHLD deliveries happen in between.  (As stated over gaps between
*consecutive* commands the claim is false, see the counterexample.) -/
theorem c3_only_first_accepted (cfg : app_config_t) (s : LoopState) (t0 : Int)
    (arg0 : List Char) (ok0 : Bool) (evs : List Ev)
    (hgap : cfg.min_gap_ms ≤ t0 - s.last_ms) (hidle : s.g_children ≤ 0)
    (hevs : ∀ now arg ok, Ev.save now arg ok ∈ evs →
        now - t0 < cfg.min_gap_ms) :
    (runEvs cfg s (Ev.save t0 arg0 ok0 :: evs)).2 =
      Decision.Proceed (saveDur cfg arg0) ::
        List.replicate (numSaves evs) Decision.Debounced := by
  have h1 := saveCmd_pass cfg s t0 arg0 ok0 hgap hidle
  simp only [runEvs, stepEv, h1, Option.toList, List.cons_append,
    List.nil_append]
  exact congrArg _ (runEvs_all_debounced cfg t0 evs _ rfl hevs)

/-- Witness for C3 amended: saves at 0, 300 and 499 with the default
500 ms gap — only the first proceeds. -/
theorem c3_only_first_accepted_witness :
    (runEvs defaultCfg initState
        [Ev.save 0 [] true, Ev.save 300 [] true, Ev.save 499 [] true]).2 =
      Decision.Proceed (saveDur defaultCfg []) ::
        List.replicate (numSaves [Ev.save 300 [] true, Ev.save 499 [] true])
          Decision.Debounced := by
  have h := c3_only_first_accepted defaultCfg initState 0 [] true
    [Ev.save 300 [] true, Ev.save 499 [] true] (by decide) (by decide)
    (by intro now arg ok hm
        simp only [List.mem_cons, List.mem_singleton] at hm
        rcases hm with h1 | h1 | h1
        · cases h1
          decide
        · cases h1
          decide
        · cases h1)
  exact h

-- ---------------------------------------------------------------------
-- C7 and C8
-- ---------------------------------------------------------------------

/-- C7 fails on the code: `last_ms_since_start` starts at the finite
value -1000000 rather than a true "never" sentinel, so with
`--min-gap 2000000` the very first `save` (arriving at monotonic time
0) is rejected as `Debounced`, although the comment at main.c line 174
says the initial value is meant to "allow immediate first trigger". -/
theorem c7_first_save_debounced_under_huge_gap :
    initState.last_ms = -1000000 ∧
    (saveGate { defaultCfg with min_gap_ms := 2000000 } initState 0 10000).1
        = Decision.Debounced := by
  exact ⟨rfl, rfl⟩

/-- C8: for a `save` with an argument, a parse result that is zero or
negative (which covers unparsable text, since `atoi` yields 0 on it)
leaves the configured default duration in force, while a positive parse
result overrides the duration for this recording only. -/
theorem c8_duration_override (cfg : app_config_t) (arg : List Char) :
    (atoi arg ≤ 0 → saveDur cfg arg = cfg.duration_ms) ∧
    (0 < atoi arg → saveDur cfg arg = atoi arg) := by
  unfold saveDur
  by_cases h : arg = []
  · subst h
    refine ⟨fun _ => by simp, fun hpos => absurd hpos (by decide)⟩
  · simp only [h, ne_eq, not_false_eq_true, if_true]
    exact ⟨fun hle => by rw [if_neg (by omega)],
      fun hpos => by rw [if_pos hpos]⟩

/-- Witness for C8: `save 15000` overrides, `save -3` and `save abc`
fall back to the default. -/
theorem c8_duration_override_witness :
    saveDur defaultCfg "15000".data = atoi "15000".data ∧
    saveDur defaultCfg "-3".data = defaultCfg.duration_ms ∧
    saveDur defaultCfg "abc".data = defaultCfg.duration_ms :=
  ⟨(c8_duration_override defaultCfg "15000".data).2 (by decide),
   (c8_duration_override defaultCfg "-3".data).1 (by decide),
   (c8_duration_override defaultCfg "abc".data).1 (by decide)⟩

-- ---------------------------------------------------------------------
-- C9 and C10
-- ---------------------------------------------------------------------

/-- When the head argument is none of the three value-taking flags, the
flag loop falls through to the `--verbose` / help / unknown chain. -/
lemma parseArgs_cons_other (cfg : app_config_t) (a : String)
    (rest : List String) (h1 : a ≠ "--duration") (h2 : a ≠ "--outdir")
    (h3 : a ≠ "--min-gap") :
    parseArgs cfg (a :: rest) =
      if a = "--verbose" then parseArgs { cfg with verbose := true } rest
      else if a = "-h" ∨ a = "--help" then .exitCode 0
      else .exitCode 1 := by
  rw [parseArgs.eq_def]
  split <;> simp_all

/-- C9 is false as stated: the command line `--bogus -h` contains `-h`,
yet the program exits with code 1, because arguments are scanned left to
right and the unknown flag is hit first. -/
theorem c9_counterexample :
    parseArgs defaultCfg ["--bogus", "-h"] = CliResult.exitCode 1 ∧
    parseArgs defaultCfg ["--bogus", "-h"] ≠ CliResult.exitCode 0 := by
  exact ⟨rfl, by decide⟩

/-- C9 amended: flags are processed left to right and the program exits
with the outcome of the first terminating token — code 0 when `-h` or
`--help` is at the head, code 1 when the head is not one of the six
known flags; a token following `--outdir` is consumed as its value and
never examined as a flag. -/
theorem c9_flag_scan_order (cfg : app_config_t) (a : String)
    (rest : List String) :
    (a ∈ (["-h", "--help"] : List String) →
        parseArgs cfg (a :: rest) = CliResult.exitCode 0) ∧
    (a ∉ (["--duration", "--outdir", "--min-gap", "--verbose", "-h",
        "--help"] : List String) →
        parseArgs cfg (a :: rest) = CliResult.exitCode 1) ∧
    (∀ (v : String) (rest2 : List String),
        parseArgs cfg ("--outdir" :: v :: rest2) =
          parseArgs { cfg with out_dir := v } rest2) := by
  refine ⟨?_, ?_, fun v rest2 => rfl⟩
  · intro h
    simp only [List.mem_cons, List.mem_singleton, List.not_mem_nil,
      or_false] at h
    rcases h with rfl | rfl <;>
      rw [parseArgs_cons_other _ _ _ (by decide) (by decide) (by decide)] <;>
      simp
  · intro h
    simp only [List.mem_cons, List.not_mem_nil, or_false, not_or] at h
    obtain ⟨h1, h2, h3, h4, h5, h6⟩ := h
    rw [parseArgs_cons_other _ _ _ h1 h2 h3]
    simp [h4, h5, h6]

/-- Witness for C9 amended: help at the head wins even with junk after
it; an unknown head exits 1. -/
theorem c9_flag_scan_order_witness :
    parseArgs defaultCfg ["-h", "--bogus"] = CliResult.exitCode 0 ∧
    parseArgs defaultCfg ["--junk"] = CliResult.exitCode 1 :=
  ⟨(c9_flag_scan_order defaultCfg "-h" ["--bogus"]).1 (by decide),
   (c9_flag_scan_order defaultCfg "--junk" []).2.1 (by decide)⟩

/-- C10: dispatch is a prefix match on the whole trimmed line — any
line whose trimmed text begins with `save` is a save command whose
argument is the remaining text after skipping spaces and tabs, so
`save15000` behaves exactly like `save 15000`, and `quitting` and
`statuses` dispatch to quit and status. -/
theorem c10_prefix_dispatch :
    (∀ rest : List Char, dispatch ('s' :: 'a' :: 'v' :: 'e' :: rest)
        = Cmd.save (skipSpTab rest)) ∧
    dispatch (trim "save15000".data) = dispatch (trim "save 15000".data) ∧
    dispatch (trim "save15000".data) = Cmd.save "15000".data ∧
    dispatch (trim "quitting".data) = Cmd.quit ∧
    dispatch (trim "statuses".data) = Cmd.status :=
  ⟨fun _ => rfl, rfl, rfl, rfl, rfl⟩

end CamTrigger
